import Mathlib

/-!
Verification development for the structspec Python-backend layout logic.

The definitions below are a shallow embedding of the code in
`src/structspec/common.py` and `src/structspec/languages/python.py`:
the type tables, the bitfield grouping helper `handleBitFields`, the
segment-flush helper `handleStructBreaks`, the per-field loop of
`outputPython` (lines 334-389), its final flush (lines 390-393), the
bitfield extraction emission (lines 394-407), the first line of the
generated length function (lines 447-451), and the enumeration value
resolution loop (lines 249-298).  Python ints are modelled as `Int`,
Python lists as Lean lists, and in-place mutation as explicit state
passing; where the source rebinds a local name (which does NOT mutate
the caller's object) the embedding faithfully leaves the caller's
state unchanged.
-/

namespace Structspec

/-- Embedding of `schemaVal` from src/structspec/common.py line 15. -/
def schemaVal : String := "/value"

/-- Embedding of the `typeSizes` table from src/structspec/common.py lines 16-64
(bit width of each primitive type name; absent names give `none`, the source
uses `.get(typeName, -1)` at its use sites). -/
def typeSizes (t : String) : Option Int :=
  match t with
  | "char" => some 8
  | "signed char" => some 8
  | "unsigned char" => some 8
  | "short" => some 16
  | "signed short" => some 16
  | "unsigned short" => some 16
  | "short int" => some 16
  | "signed short int" => some 16
  | "unsigned short int" => some 16
  | "int" => some 32
  | "signed int" => some 32
  | "unsigned int" => some 32
  | "long" => some 32
  | "signed long" => some 32
  | "unsigned long" => some 32
  | "long int" => some 32
  | "signed long int" => some 32
  | "unsigned long int" => some 32
  | "long long" => some 64
  | "signed long long" => some 64
  | "unsigned long long" => some 64
  | "long long int" => some 64
  | "signed long long int" => some 64
  | "unsigned long long int" => some 64
  | "float" => some 32
  | "double" => some 64
  | "long double" => some 128
  | "bool" => some 16
  | "boolean" => some 8
  | "_Bool" => some 8
  | "int8_t" => some 8
  | "uint8_t" => some 8
  | "int16_t" => some 16
  | "uint16_t" => some 16
  | "int24_t" => some 24
  | "uint24_t" => some 24
  | "int32_t" => some 32
  | "uint32_t" => some 32
  | "int64_t" => some 64
  | "uint64_t" => some 64
  | "hollerith" => some 8
  | "string" => some 8
  | "str" => some 8
  | "pascal" => some 8
  | "pointer" => some 16
  | "void" => some 16
  | "padding" => some 8
  | _ => none

/-- Embedding of the `typeFormatChar` table from
src/structspec/languages/python.py lines 33-81 (Python struct format
characters; some entries are two characters, hence `String`). -/
def typeFormatChar (t : String) : Option String :=
  match t with
  | "char" => some "c"
  | "signed char" => some "b"
  | "unsigned char" => some "B"
  | "short" => some "h"
  | "signed short" => some "h"
  | "unsigned short" => some "H"
  | "short int" => some "h"
  | "signed short int" => some "h"
  | "unsigned short int" => some "H"
  | "int" => some "i"
  | "signed int" => some "i"
  | "unsigned int" => some "I"
  | "long" => some "l"
  | "signed long" => some "l"
  | "unsigned long" => some "L"
  | "long int" => some "l"
  | "signed long int" => some "l"
  | "unsigned long int" => some "L"
  | "long long" => some "q"
  | "signed long long" => some "q"
  | "unsigned long long" => some "Q"
  | "long long int" => some "q"
  | "signed long long int" => some "q"
  | "unsigned long long int" => some "Q"
  | "float" => some "f"
  | "double" => some "d"
  | "long double" => some "QQ"
  | "bool" => some "i"
  | "boolean" => some "?"
  | "_Bool" => some "?"
  | "int8_t" => some "b"
  | "uint8_t" => some "B"
  | "int16_t" => some "h"
  | "uint16_t" => some "H"
  | "int24_t" => some "BH"
  | "uint24_t" => some "BH"
  | "int32_t" => some "l"
  | "uint32_t" => some "L"
  | "int64_t" => some "q"
  | "uint64_t" => some "Q"
  | "hollerith" => some "c"
  | "string" => some "s"
  | "str" => some "s"
  | "pascal" => some "p"
  | "pointer" => some "P"
  | "void" => some "P"
  | "padding" => some "x"
  | _ => none

/-- Embedding of `endianFormatChar.get(endianness, '')` from
src/structspec/languages/python.py lines 84-89 and line 181. -/
def endianFormatChar (e : String) : String :=
  match e with
  | "big" => ">"
  | "little" => "<"
  | "network" => "!"
  | "native" => "@"
  | _ => ""

/-- Embedding of `isStringType` from src/structspec/common.py lines 67-80. -/
def isStringType (t : String) : Bool :=
  ["char", "string", "str", "hollerith", "pascal"].contains t

/-- Embedding of `isBooleanType` from src/structspec/common.py lines 83-96. -/
def isBooleanType (t : String) : Bool :=
  ["bool", "boolean", "_Bool"].contains t

/-- Embedding of `isFloatType` from src/structspec/common.py lines 115-128. -/
def isFloatType (t : String) : Bool :=
  ["float", "double", "long double"].contains t

/-- Embedding of `isPadding` from src/structspec/common.py lines 99-112. -/
def isPadding (t : String) : Bool :=
  t == "padding"

/-- Embedding of `isIntegerType` from src/structspec/common.py lines 131-145. -/
def isIntegerType (t : String) : Bool :=
  !isStringType t && !isFloatType t && !isBooleanType t

/-- The numeric value of a decimal digit character (code points 48-57),
`none` for any other character. -/
def pyDigit (c : Char) : Option Nat :=
  let n := c.toNat
  if 48 ≤ n ∧ n ≤ 57 then some (n - 48) else none

/-- Value of a nonempty all-digit character sequence, `none` when the
sequence is empty or contains a non-digit (the accumulator is `none` until a
first digit has been seen). -/
def pyDigitsVal : List Char → Option Nat → Option Nat
  | [], acc => acc
  | c :: cs, acc =>
    match pyDigit c with
    | some d => pyDigitsVal cs (some (acc.getD 0 * 10 + d))
    | none => none

/-- Embedding of Python `int(sizeLabel)` guarded by `except ValueError:
sizeInBits = 0` in src/structspec/languages/python.py lines 370-373: parse an
integer literal of the form occurring in specifications (an optional minus
sign and decimal digits), falling back to 0 when it does not parse. -/
def pyIntOr0 (s : String) : Int :=
  match s.data with
  | '-' :: cs =>
    match pyDigitsVal cs none with
    | some n => -(n : Int)
    | none => 0
  | cs =>
    match pyDigitsVal cs none with
    | some n => (n : Int)
    | none => 0

/-- The characters after the last slash: each slash encountered resets the
candidate result to the remainder of the list. -/
def segAfterSlash : List Char → List Char → List Char
  | acc, [] => acc
  | acc, c :: cs => if c == '/' then segAfterSlash cs cs else segAfterSlash acc cs

/-- Embedding of `s[s.rfind('/') + 1:]`: the substring after the last slash
(the whole string when there is no slash), as used in
src/structspec/languages/python.py lines 344, 355 and 365. -/
def lastSegment (s : String) : String :=
  ⟨segAfterSlash s.data s.data⟩

/-- Embedding of `s.startswith('#/')` as used throughout
src/structspec/languages/python.py (lines 341, 353, 363). -/
def startsWithRef (s : String) : Bool :=
  match s.data with
  | '#' :: '/' :: _ => true
  | _ => false

/-- Embedding of `label[:-len(schemaVal)]`: drop the trailing `n` characters
(src/structspec/languages/python.py lines 354 and 364). -/
def pyDropRight (s : String) (n : Nat) : String :=
  ⟨s.data.take (s.data.length - n)⟩

/-- Embedding of `int(pow(2, n))` from src/structspec/languages/python.py line
395.  `math.pow` returns a float, but powers of two up to the exponents that
occur here are represented exactly, so the value is `2 ^ n`; a negative
exponent gives a value below 1 whose `int()` is 0. -/
def pyPow2 (n : Int) : Nat :=
  if 0 ≤ n then 2 ^ n.toNat else 0

/-- Embedding of `"packet['{}']".format(name)` from
src/structspec/languages/python.py lines 381 and 384. -/
def mkPacketVar (n : String) : String :=
  "packet[\x27" ++ n ++ "\x27]"

/-- The storage format character selected inside `handleBitFields`
(src/structspec/languages/python.py lines 130-139): the if/elif chain picking
`B`/`H`/`L`/`Q`; a length above 64 selects nothing (the source prints
"Bitfield too long." and appends no character). -/
def bitFieldFormatChar (bitFieldLen : Int) : Option String :=
  if bitFieldLen ≤ 8 then some "B"
  else if bitFieldLen ≤ 16 then some "H"
  else if bitFieldLen ≤ 32 then some "L"
  else if bitFieldLen ≤ 64 then some "Q"
  else none

/-- Result of `handleBitFields`: the two caller-visible list mutations, the
returned bitfield count, and whether the "Bitfield too long." message was
printed.  Note the source's `bitFieldLen = 0` on line 140 rebinds a local
parameter only; the caller's running total is NOT returned or reset. -/
structure BFResult where
  formatList : List String
  varList : List String
  bitFieldCount : Int
  overflowMsg : Bool
deriving DecidableEq

/-- Embedding of `handleBitFields` from src/structspec/languages/python.py
lines 92-143: when the pending length is nonzero, append the selected storage
format character (nothing on overflow, after printing a message), append a
`bitFieldN` variable name, and return the incremented count. -/
def handleBitFields (bitFieldLen bitFieldCount : Int)
    (formatList varList : List String) : BFResult :=
  if bitFieldLen ≠ 0 then
    { formatList := formatList ++ (bitFieldFormatChar bitFieldLen).toList
      varList := varList ++ ["bitField" ++ toString bitFieldCount]
      bitFieldCount := bitFieldCount + 1
      overflowMsg := (bitFieldFormatChar bitFieldLen).isNone }
  else
    { formatList := formatList
      varList := varList
      bitFieldCount := bitFieldCount
      overflowMsg := false }

/-- One field declaration of a packet's `structure` mapping, with the
attributes read by `outputPython` (src/structspec/languages/python.py lines
334-389): the field name, its `type`, and the optional `count`, `size` and
`endianness` attributes (all attribute values are strings in the document). -/
structure Field where
  name : String
  type : String
  count : Option String := none
  size : Option String := none
  endianness : Option String := none
deriving DecidableEq

/-- The mutable state of the per-packet loop of `outputPython`
(src/structspec/languages/python.py lines 327-333 initialise it):
the work lists, the running bitfield length and count, the collected
bitfield triples `(variable, unit number, size in bits)`, and the loop
variables `typeName` and `endianness` which persist after the loop (modelled
as the last values assigned; `typeName` is `none` before any field is seen).
`overflowMsgs` counts "Bitfield too long." messages printed so far. -/
structure CompileState where
  formatList : List String := []
  formatStrList : List String := []
  substructureList : List String := []
  varList : List String := []
  countList : List String := []
  bitFieldCount : Int := 0
  bitFieldLen : Int := 0
  bitFields : List (String × Int × Int) := []
  typeName : Option String := none
  lastEndianness : String := ""
  overflowMsgs : Nat := 0
deriving DecidableEq

/-- Embedding of `handleStructBreaks` from src/structspec/languages/python.py
lines 146-200: when the format list is nonempty, record the segment format
string (endianness prefix, joined format elements, optional `.format(...)`
count suffix) on `formatStrList`.  The source's trailing `formatList = []`,
`varList = []`, `countList = []` rebind local names only, so the caller's
work lists are (faithfully) left unchanged here. -/
def handleStructBreaks (st : CompileState) (endianness : String) : CompileState :=
  if st.formatList.isEmpty then st
  else
    let formatStr := String.join st.formatList
    let countStr :=
      if st.countList.isEmpty then ""
      else ".format(" ++ String.intercalate ", " st.countList ++ ")"
    let formatStr2 := endianFormatChar endianness ++ formatStr
    { st with formatStrList :=
        st.formatStrList ++ ["\x27" ++ formatStr2 ++ "\x27" ++ countStr] }

/-- Embedding of one iteration of the field loop of `outputPython`
(src/structspec/languages/python.py lines 334-389).  `ptr` stands for
`resolveJsonPointer` applied to the specification document; `pktEnd` and
`specEnd` are the packet-level and document-level `endianness` attributes.
Each branch mirrors the source: substructure types (starting with `#/`)
flush the current segment and are recorded; otherwise the optional `count`
is appended to the format/count lists, a `size` attribute is resolved (an
unparseable literal resolving to 0), the bitfield test is
`sizeInBits != typeSizes.get(typeName, -1) or sizeInBits % 8 != 0`, and the
field goes to the plain-format branch, the bitfield branch, or (silently)
nowhere.  After the plain-format branch the running `bitFieldLen` is NOT
reset, exactly as in the source (only `bitFieldCount` is returned). -/
def processField (ptr : String → Int) (pktEnd specEnd : Option String)
    (st : CompileState) (f : Field) : CompileState :=
  let endianness := f.endianness.getD (pktEnd.getD (specEnd.getD ""))
  if startsWithRef f.type then
    let st2 := handleStructBreaks st endianness
    let typeName := lastSegment f.type
    { st2 with substructureList := st2.substructureList ++ [typeName]
               typeName := some typeName
               lastEndianness := endianness }
  else
    let typeName := f.type
    let st1 :=
      match f.count with
      | some c =>
        if startsWithRef c then
          let countLabel := lastSegment (pyDropRight c schemaVal.length)
          { st with formatList := st.formatList ++ ["\x7b\x7d"]
                    countList := st.countList ++ [countLabel] }
        else
          { st with formatList := st.formatList ++ [c] }
      | none => st
    let sizeInBits : Int :=
      match f.size with
      | some s => if startsWithRef s then ptr s else pyIntOr0 s
      | none => 0
    let gotBitField : Bool :=
      match f.size with
      | some _ =>
        (sizeInBits != (typeSizes typeName).getD (-1)) || (sizeInBits % 8 != 0)
      | none => false
    if (typeFormatChar typeName).isSome && !gotBitField then
      let r := handleBitFields st1.bitFieldLen st1.bitFieldCount
                 st1.formatList st1.varList
      { st1 with formatList := r.formatList ++ [(typeFormatChar typeName).getD ""]
                 varList := r.varList ++ [mkPacketVar f.name]
                 bitFieldCount := r.bitFieldCount
                 overflowMsgs := st1.overflowMsgs + (if r.overflowMsg then 1 else 0)
                 typeName := some typeName
                 lastEndianness := endianness }
    else if gotBitField then
      { st1 with bitFieldLen := st1.bitFieldLen + sizeInBits
                 bitFields := st1.bitFields ++
                   [(mkPacketVar f.name, st1.bitFieldCount, sizeInBits)]
                 typeName := some typeName
                 lastEndianness := endianness }
    else
      { st1 with typeName := some typeName
                 lastEndianness := endianness }

/-- The field loop of `outputPython` over a whole packet: fold
`processField` over the declared fields starting from the freshly
initialised state (src/structspec/languages/python.py lines 327-389). -/
def compileFields (ptr : String → Int) (pktEnd specEnd : Option String)
    (fields : List Field) : CompileState :=
  fields.foldl (processField ptr pktEnd specEnd) {}

/-- Embedding of the post-loop flush, src/structspec/languages/python.py lines
390-393: a final `handleBitFields` with the running length and a final
`handleStructBreaks` with the loop's last `endianness` value. -/
def finishPacket (st : CompileState) : CompileState :=
  let r := handleBitFields st.bitFieldLen st.bitFieldCount st.formatList st.varList
  let st2 := { st with formatList := r.formatList
                       varList := r.varList
                       bitFieldCount := r.bitFieldCount
                       overflowMsgs := st.overflowMsgs + (if r.overflowMsg then 1 else 0) }
  handleStructBreaks st2 st2.lastEndianness

/-- Compile one packet's field list: the field loop followed by the final
flush (src/structspec/languages/python.py lines 334-393). -/
def compilePacket (ptr : String → Int) (pktEnd specEnd : Option String)
    (fields : List Field) : CompileState :=
  finishPacket (compileFields ptr pktEnd specEnd fields)

/-- `compilePacket` with no document-level or packet-level endianness and a
trivial JSON-pointer environment (none of the packets considered in the
theorems below use pointer-valued attributes). -/
def compilePacketD (fields : List Field) : CompileState :=
  compilePacket (fun _ => 0) none none fields

/-- One emitted bitfield extraction from src/structspec/languages/python.py
lines 394-407: the target variable, the Python constructor used to coerce the
value, the storage-unit number, the mask `int(pow(2, size))`, and the amount
of the subsequent `bitFieldN <<= size` left shift. -/
structure Extraction where
  name : String
  ctor : String
  num : Int
  mask : Nat
  shift : Int
deriving DecidableEq

/-- Embedding of the constructor choice in src/structspec/languages/python.py
lines 396-403: it inspects the loop variable `typeName`, which at this point
holds the type name of the LAST field iterated (it is not re-derived per
bitfield).  `none` stands for the (unreachable when any bitfield exists)
case of a packet with no fields. -/
def pyBitFieldType (typeName : Option String) : String :=
  match typeName with
  | some t =>
    if isFloatType t then "float"
    else if isBooleanType t then "bool"
    else if isStringType t then "str"
    else "int"
  | none => "int"

/-- Embedding of the extraction-emission loop, src/structspec/languages/python.py
lines 394-407: one descriptor per recorded bitfield, in order, all using the
single constructor derived from the final `typeName`. -/
def genExtractions (st : CompileState) : List Extraction :=
  st.bitFields.map (fun bf =>
    { name := bf.1
      ctor := pyBitFieldType st.typeName
      num := bf.2.1
      mask := pyPow2 bf.2.2
      shift := bf.2.2 })

/-- Semantics of the emitted extraction lines for one storage-unit variable
holding value `v`: each line computes `v &&& mask` and then left-shifts the
variable by the field's size (`bitFieldN <<= size`), exactly as the generated
code does. -/
def runUnitExtractions (v : Nat) : List Extraction → List Nat
  | [] => []
  | e :: rest => (v &&& e.mask) :: runUnitExtractions (v <<< e.shift.toNat) rest

/-- Modelled from the spec wording of claim C3: sequential extraction from
bit 0, each field consuming the next `w` low bits of the storage value. -/
def seqExtract (v : Nat) : List Nat → List Nat
  | [] => []
  | w :: ws => (v % 2 ^ w) :: seqExtract (v / 2 ^ w) ws

/-- Modelled from the spec wording: the smallest width among {8,16,32,64}
that is at least `n` (the list is sorted, so the first fitting element is the
smallest), `none` when `n` exceeds 64. -/
def smallestFit (n : Int) : Option Int :=
  (([8, 16, 32, 64] : List Int).filter (fun w => n ≤ w)).head?

/-- Bit width of a storage-unit struct format character as the source intends
them (`B`/`H`/`L`/`Q` for 8/16/32/64 bits); other strings are not storage
units. -/
def storageCharWidth (c : String) : Option Int :=
  if c == "B" then some 8
  else if c == "H" then some 16
  else if c == "L" then some 32
  else if c == "Q" then some 64
  else none

/-- Embedding of the first generated line of the `get_<packet>_len` body,
src/structspec/languages/python.py lines 447-451: `totalSize = 0` when no
segment format strings were collected, else a sum of `calcsize` calls. -/
def genLenFirstLine (st : CompileState) : String :=
  if st.formatStrList.isEmpty then "totalSize = 0"
  else "totalSize = calcsize(" ++
       String.intercalate ") + calcsize(" st.formatStrList ++ ")"

/-- A Python value as it occurs for enumeration option `value` attributes in
the code paths modelled here: absent (`None`), an int, or a string. -/
inductive PyVal where
  | vNone : PyVal
  | vInt : Int → PyVal
  | vStr : String → PyVal
deriving DecidableEq

/-- One enumeration option with its optional `value` and `type` attributes
(src/structspec/languages/python.py lines 251-298). -/
structure EnumOption where
  name : String
  value : Option PyVal := none
  type : Option String := none
deriving DecidableEq

/-- The running `(varType, value)` state of the enumeration loop,
initialised from the enumeration's optional `type` and `value = None`
(src/structspec/languages/python.py lines 249-250). -/
structure EnumState where
  varType : Option String
  value : PyVal
deriving DecidableEq

/-- `isStringType` applied to a possibly-absent type name; in the source a
`None` simply fails the tuple membership test. -/
def isStringTypeOpt : Option String → Bool
  | some t => isStringType t
  | none => false

/-- `isFloatType` applied to a possibly-absent type name. -/
def isFloatTypeOpt : Option String → Bool
  | some t => isFloatType t
  | none => false

/-- `isBooleanType` applied to a possibly-absent type name. -/
def isBooleanTypeOpt : Option String → Bool
  | some t => isBooleanType t
  | none => false

/-- Embedding of one iteration of the enumeration option loop,
src/structspec/languages/python.py lines 251-296, restricted to the
`(varType, value)` state it updates (the `exec` of the generated line, line
298, is modelled separately by `execOk` and `enumResolveRun` below).  With an
explicit value: the running type is the option's override
or the previous running type, collapsed by the if/elif/else chain (lines
259-266) to one of "str"/"float"/"bool"/"int" (the chain always assigns, so
the source's `if varType is None:` guess branch on lines 267-275 is
unreachable and is omitted); the running value becomes the option's value.
Without an explicit value: the type defaults to "int" if never set, and the
value becomes previous+1 when the previous value is an int, else 0 (lines
277-285) — no error is ever raised. -/
def enumOptionStep (st : EnumState) (opt : EnumOption) : EnumState :=
  match opt.value with
  | some v =>
    let vt0 :=
      match opt.type with
      | some t => some t
      | none => st.varType
    let vt :=
      if isStringTypeOpt vt0 then "str"
      else if isFloatTypeOpt vt0 then "float"
      else if isBooleanTypeOpt vt0 then "bool"
      else "int"
    { varType := some vt, value := v }
  | none =>
    let vt :=
      match st.varType with
      | none => "int"
      | some t => t
    let newVal :=
      match st.value with
      | PyVal.vInt i => PyVal.vInt (i + 1)
      | _ => PyVal.vInt 0
    { varType := some vt, value := newVal }

/-- The enumeration loop over a whole option list: starting from the
enumeration's declared type and `value = None`, resolve each option in
declaration order to the value written on its generated line
(src/structspec/languages/python.py lines 249-296).  This ignores the
per-option `exec` of line 298; `enumResolveRun` below adds that effect. -/
def enumResolve (enumType : Option String) (opts : List EnumOption) :
    List (String × PyVal) :=
  (opts.foldl
    (fun (acc : List (String × PyVal) × EnumState) opt =>
      let st := enumOptionStep acc.2 opt
      (acc.1 ++ [(opt.name, st.value)], st))
    ([], { varType := enumType, value := PyVal.vNone })).1

/-- A string of an optional minus sign and decimal digits: the texts that
evaluate as Python integer literals when they appear as the right-hand side
of an executed assignment. -/
def isIntLiteral (s : String) : Bool :=
  match s.data with
  | '-' :: cs => (pyDigitsVal cs none).isSome
  | cs => (pyDigitsVal cs none).isSome

/-- Embedding of the effect of `exec '{} = {}'.format(optionName, value)` at
src/structspec/languages/python.py line 298.  Because the delimiter test on
line 286 compares the strings "int"/"str" to the class `str` and is
therefore always false, a string value is interpolated unquoted, so the
executed statement's right-hand side is the raw text: it evaluates when the
value is an int, or a string that is an integer literal or a name already
defined in the emitting scope (`defined` holds the option names assigned by
earlier exec lines of the same run); any other string raises an uncaught
NameError, aborting generation.  A `None` value (unreachable here, since the
loop always assigns the running value before the exec) would interpolate as
the defined name `None` and succeed. -/
def execOk (defined : List String) (v : PyVal) : Bool :=
  match v with
  | PyVal.vInt _ => true
  | PyVal.vStr s => isIntLiteral s || defined.contains s
  | PyVal.vNone => true

/-- The enumeration option loop including line 298's per-option `exec`:
resolve each option in order and execute its generated `name = value`
assignment; a failing exec raises NameError and aborts the run (`none`, with
no later option processed), a successful one makes the option's name a
defined name for subsequent options. -/
def enumRunAux : EnumState → List String → List EnumOption →
    Option (List (String × PyVal))
  | _, _, [] => some []
  | st, defined, opt :: rest =>
    let st2 := enumOptionStep st opt
    if execOk defined st2.value then
      match enumRunAux st2 (defined ++ [opt.name]) rest with
      | some tl => some ((opt.name, st2.value) :: tl)
      | none => none
    else none

/-- `enumRunAux` from the loop's initial state: `none` models the program
crashing with NameError at some option's exec line; `some` gives the
resolved values of a run all of whose exec lines succeed.  `defined0` holds
names already defined in the emitting scope before this enumeration. -/
def enumResolveRun (enumType : Option String) (defined0 : List String)
    (opts : List EnumOption) : Option (List (String × PyVal)) :=
  enumRunAux { varType := enumType, value := PyVal.vNone } defined0 opts

/-- The type name the source's loop variable `typeName` receives for a
field: the final path segment for a packet reference, else the type itself
(src/structspec/languages/python.py lines 344 and 351). -/
def fieldTypeName (f : Field) : String :=
  if startsWithRef f.type then lastSegment f.type else f.type

/-- Modelled from the claim wording of C10: the type name of the last field
iterated in the packet's field list (none for an empty list). -/
def lastTypeNameSpec : List Field → Option String
  | [] => none
  | [f] => some (fieldTypeName f)
  | _ :: f2 :: fs => lastTypeNameSpec (f2 :: fs)

/-- Three consecutive bitfields of widths 3, 5 and 9 bits (sizes differing
from `int`'s natural 32-bit width, so each is classified as a bitfield). -/
def pkt359 : List Field :=
  [{ name := "f1", type := "int", size := some "3" },
   { name := "f2", type := "int", size := some "5" },
   { name := "f3", type := "int", size := some "9" }]

/-- A 7-bit bitfield, a plain `char` field, then another 7-bit bitfield. -/
def pkt2 : List Field :=
  [{ name := "f1", type := "int", size := some "7" },
   { name := "f2", type := "char" },
   { name := "f3", type := "int", size := some "7" }]

/-- Two consecutive bitfields of widths 3 and 5 bits. -/
def pkt35 : List Field :=
  [{ name := "f1", type := "int", size := some "3" },
   { name := "f2", type := "int", size := some "5" }]

/-- A field whose `size` attribute is the unparseable literal "banana". -/
def pkt4 : List Field :=
  [{ name := "f1", type := "int", size := some "banana" }]

/-- A single 65-bit bitfield: the pending total exceeds 64 at flush. -/
def pkt65 : List Field :=
  [{ name := "f1", type := "int", size := some "65" }]

/-- A single field whose type name is unknown (neither a packet reference
nor present in the type tables) and which has no size attribute. -/
def pktMystery : List Field :=
  [{ name := "m", type := "mystery" }]

/-- Two bitfields declared with different types (`float` and `char`),
followed by a plain `bool` field, which is therefore the last field
iterated. -/
def pktMix : List Field :=
  [{ name := "f1", type := "float", size := some "3" },
   { name := "f2", type := "char", size := some "5" },
   { name := "f3", type := "bool" }]

/-- Helper: every branch of `processField` assigns the loop variable
`typeName` the name computed for the current field (the final path segment
for a packet reference, else the declared type). -/
theorem processField_typeName (ptr : String → Int) (pktEnd specEnd : Option String)
    (st : CompileState) (f : Field) :
    (processField ptr pktEnd specEnd st f).typeName = some (fieldTypeName f) := by
  unfold processField fieldTypeName
  by_cases h : startsWithRef f.type
  · simp [h]
  · simp only [h, Bool.false_eq_true, if_false]
    split
    · rfl
    · split <;> rfl

/-- Helper: after folding the field loop over a nonempty field list, the loop
variable `typeName` holds the type name of the last field iterated. -/
theorem foldl_typeName (ptr : String → Int) (pktEnd specEnd : Option String) :
    ∀ (fs : List Field) (st : CompileState), fs ≠ [] →
      (fs.foldl (processField ptr pktEnd specEnd) st).typeName = lastTypeNameSpec fs
  | [f], st, _ => by
      simp [List.foldl, lastTypeNameSpec, processField_typeName]
  | f :: g :: fs, st, _ => by
      have ih := foldl_typeName ptr pktEnd specEnd (g :: fs)
        (processField ptr pktEnd specEnd st f) (by simp)
      simpa [List.foldl, lastTypeNameSpec] using ih

/-- Helper: the final flush does not change the recorded `typeName`. -/
theorem finishPacket_typeName (st : CompileState) :
    (finishPacket st).typeName = st.typeName := by
  simp only [finishPacket, handleStructBreaks]
  split <;> rfl

/-- Helper: the final flush does not change the recorded bitfield triples. -/
theorem finishPacket_bitFields (st : CompileState) :
    (finishPacket st).bitFields = st.bitFields := by
  simp only [finishPacket, handleStructBreaks]
  split <;> rfl

/-- C1 counterexample: for three consecutive bitfields of widths 3, 5 and 9
bits the claim demands exactly two storage units of 8 and 16 bits; the
compiled packet instead yields exactly one storage unit, of 32 bits (the run
is only flushed at the end of the field list, with 3+5+9 = 17 pending bits). -/
theorem C1_counterexample :
    (compilePacketD pkt359).formatList.map storageCharWidth = [some 32] ∧
    (compilePacketD pkt359).formatList.map storageCharWidth ≠ [some 8, some 16] := by
  decide

/-- C1 (amended): for three consecutive bitfield fields of widths 3, 5 and 9
bits with no intervening non-bitfield field, the grouper produces exactly ONE
storage unit — a 32-bit unit (`L`) holding all three fields (all three share
storage-unit number 0), 32 being the smallest of {8,16,32,64} holding the
17 pending bits — and never the two units (8-bit and 16-bit) of the original
claim, since the run is only flushed at a non-bitfield boundary or at the end
of the field list. -/
theorem C1_amended_thm :
    (compilePacketD pkt359).formatList = ["L"] ∧
    storageCharWidth "L" = some 32 ∧
    smallestFit (3 + 5 + 9) = some 32 ∧
    (compilePacketD pkt359).bitFields =
      [(mkPacketVar "f1", 0, 3), (mkPacketVar "f2", 0, 5), (mkPacketVar "f3", 0, 9)] := by
  decide

/-- C2: the claim says both accumulators are reset after a flush, so a later
group's storage width depends only on its own fields.  The code's reset of
the running bit total (`bitFieldLen = 0` inside `handleBitFields`, and the
"Empty work lists" rebindings in `handleStructBreaks`) only rebinds locals,
so the caller's running total survives the flush: in a packet with a 7-bit
bitfield, a plain `char`, and another 7-bit bitfield, the second group —
whose own fields total 7 bits, needing only an 8-bit unit — is emitted as a
16-bit `H` unit because the stale 7 bits from the first group are still in
the running total (7+7 = 14). -/
theorem C2_bug :
    (compilePacketD pkt2).formatList = ["B", "c", "H"] ∧
    (compilePacketD pkt2).bitFields =
      [(mkPacketVar "f1", 0, 7), (mkPacketVar "f3", 1, 7)] ∧
    (compilePacketD pkt2).bitFieldLen = 14 ∧
    smallestFit 7 = some 8 ∧
    storageCharWidth "H" = some 16 := by
  decide

/-- C3: the claim says each field's extractor selects exactly the next
`width` low bits of the storage unit (mask of `width` low bits, preceding
bits consumed).  The generated code instead masks with `int(pow(2, width))`
— a single bit, not `2^width - 1` — and then left-shifts the storage
variable.  For a group of widths [3, 5] and storage byte 255 the generated
extractions yield [8, 32], whereas the claimed next-width-bits-from-bit-0
semantics yields [7, 31]. -/
theorem C3_bug :
    (genExtractions (compilePacketD pkt35)).map (fun e => (e.mask, e.shift)) =
      [(8, 3), (32, 5)] ∧
    runUnitExtractions 255 (genExtractions (compilePacketD pkt35)) = [8, 32] ∧
    seqExtract 255 [3, 5] = [7, 31] ∧
    ([8, 32] : List Nat) ≠ [7, 31] := by
  decide

/-- C4: the claim says a size attribute that does not resolve to an integer
makes the constant size computation fail rather than report 0.  The code's
`except ValueError: sizeInBits = 0` substitutes 0: the field becomes a 0-bit
bitfield, no segment format string is collected, and the generated length
function's body is the literal `totalSize = 0` — a constant size of 0 is
reported for the packet. -/
theorem C4_bug :
    pyIntOr0 "banana" = 0 ∧
    (compilePacketD pkt4).bitFields = [(mkPacketVar "f1", 0, 0)] ∧
    (compilePacketD pkt4).formatStrList = [] ∧
    genLenFirstLine (compilePacketD pkt4) = "totalSize = 0" := by
  decide

/-- C5: for every running total of pending bitfield bits between 1 and 64,
the storage unit emitted by `handleBitFields` at flush is exactly one format
character whose bit width is the smallest width among {8, 16, 32, 64} that is
greater than or equal to the running total. -/
theorem C5_thm (n : Int) (h1 : 1 ≤ n) (h2 : n ≤ 64) :
    (handleBitFields n 0 [] []).formatList.map storageCharWidth = [smallestFit n] := by
  interval_cases n <;> decide

/-- C5 witness: at a running total of 17 pending bits the emitted storage
unit is the 32-bit one, the smallest of {8,16,32,64} at least 17. -/
theorem C5_witness :
    (handleBitFields 17 0 [] []).formatList.map storageCharWidth = [smallestFit 17] ∧
    smallestFit 17 = some 32 :=
  ⟨C5_thm 17 (by decide) (by decide), by decide⟩

/-- C6 counterexample: the claim says a pending total above 64 bits makes
compilation fail with a BitfieldOverflow error, with no layout handed onward.
For a single 65-bit bitfield the compiler does not fail: it prints "Bitfield
too long." (counted by `overflowMsgs`), emits no storage format character,
yet still appends a `bitField0` variable, advances the bitfield counter, and
still emits extraction code for the field — output is produced for the
packet. -/
theorem C6_counterexample :
    (compilePacketD pkt65).overflowMsgs = 1 ∧
    (compilePacketD pkt65).formatList = [] ∧
    (compilePacketD pkt65).varList = ["bitField0"] ∧
    (compilePacketD pkt65).bitFieldCount = 1 ∧
    genExtractions (compilePacketD pkt65) =
      [{ name := mkPacketVar "f1", ctor := "int", num := 0,
         mask := 2 ^ 65, shift := 65 }] := by
  decide

/-- C6 (amended): when the pending bitfield total exceeds 64 at flush time,
`handleBitFields` prints "Bitfield too long." and emits no storage format
character, but compilation does not fail: the variable list still gains a
`bitFieldN` entry and the counter still advances, so processing continues
(and the format and variable lists fall out of step). -/
theorem C6_amended_thm (n c : Int) (fl vl : List String) (h : 64 < n) :
    handleBitFields n c fl vl =
      { formatList := fl,
        varList := vl ++ ["bitField" ++ toString c],
        bitFieldCount := c + 1,
        overflowMsg := true } := by
  have h0 : n ≠ 0 := by omega
  have h8 : ¬ n ≤ 8 := by omega
  have h16 : ¬ n ≤ 16 := by omega
  have h32 : ¬ n ≤ 32 := by omega
  have h64 : ¬ n ≤ 64 := by omega
  simp [handleBitFields, bitFieldFormatChar, h0, h8, h16, h32, h64]

/-- C6 witness: the amended behaviour at the concrete overflowing total 65. -/
theorem C6_witness :
    handleBitFields 65 0 [] [] =
      { formatList := [], varList := ["bitField0"],
        bitFieldCount := 1, overflowMsg := true } :=
  C6_amended_thm 65 0 [] [] (by decide)

/-- C7: enumeration options without an explicit value resolve to the previous
resolved int value plus 1, defaulting to 0 when no previous int value exists:
for options A (no value), B (value = n), C (no value) the resolved values are
A = 0, B = n, C = n + 1 — in particular [0, 5, 6] for n = 5. -/
theorem C7_thm (n : Int) (a b c : String) :
    enumResolve none
      [{ name := a }, { name := b, value := some (PyVal.vInt n) }, { name := c }] =
      [(a, PyVal.vInt 0), (b, PyVal.vInt n), (c, PyVal.vInt (n + 1))] := rfl

/-- C8 counterexample: the claim says the compiler fails with an
InvalidEnumerationSequence error WHENEVER an implicit increment meets a
non-numeric running value.  For options A (value 5), B (value the string
"A" — which names the already-emitted option A, so B's exec line `B = A`
succeeds), C (no value): C's implicit increment meets the non-numeric
running value "A", yet the run completes with C resolved to 0 and no error
of any kind.  Conversely, for A (value "foo"), B (no value), the run does
abort — but with a NameError at A's own exec line `A = foo`, before B's
increment is ever reached, not with an InvalidEnumerationSequence (no such
error exists in the code). -/
theorem C8_counterexample :
    enumResolveRun none []
      [{ name := "A", value := some (PyVal.vInt 5) },
       { name := "B", value := some (PyVal.vStr "A") },
       { name := "C" }] =
      some [("A", PyVal.vInt 5), ("B", PyVal.vStr "A"), ("C", PyVal.vInt 0)] ∧
    enumResolveRun none []
      [{ name := "A", value := some (PyVal.vStr "foo") }, { name := "B" }] =
      none := by
  decide

/-- C8 (amended): the enumeration compiler has no InvalidEnumerationSequence
error.  When an option without an explicit value must be auto-incremented
and the running value is non-numeric, the increment logic raises nothing and
resolves the option to 0 (the same default as when no previous value
exists), and generation completes whenever every option's exec line
evaluates — as for options A (value n), B (value the string "A", naming the
earlier option A), C (no value), which complete with C = 0 for every int n.
(A string value naming nothing defined aborts generation with a NameError at
that option's own exec line instead, as the counterexample's second part
shows.) -/
theorem C8_amended_thm (n : Int) :
    enumResolveRun none []
      [{ name := "A", value := some (PyVal.vInt n) },
       { name := "B", value := some (PyVal.vStr "A") },
       { name := "C" }] =
      some [("A", PyVal.vInt n), ("B", PyVal.vStr "A"), ("C", PyVal.vInt 0)] := rfl

/-- C9 counterexample: the claim says a field whose type is neither a packet
reference nor in the type catalog fails with UnknownType and is never
silently omitted.  "mystery" is in neither table, yet compiling a packet with
one such field succeeds and yields a state identical to the initial one
except for the loop trackers: no format element, no variable, no bitfield, no
segment — the field is silently omitted and no error is raised. -/
theorem C9_counterexample :
    typeFormatChar "mystery" = none ∧
    typeSizes "mystery" = none ∧
    compilePacketD pktMystery = { typeName := some "mystery" } := by
  decide

/-- C9 (amended): for a field whose type name is neither a packet reference
nor present in the type catalog and which has no count or size attribute,
compilation does not fail: the field is silently omitted — processing it
changes nothing in the state except the loop's `typeName` and endianness
trackers. -/
theorem C9_amended_thm (ptr : String → Int) (pktEnd specEnd : Option String)
    (st : CompileState) (nm tn : String)
    (h1 : startsWithRef tn = false) (h2 : typeFormatChar tn = none) :
    processField ptr pktEnd specEnd st { name := nm, type := tn } =
      { st with typeName := some tn,
                lastEndianness := pktEnd.getD (specEnd.getD "") } := by
  unfold processField
  simp [h1, h2]

/-- C9 witness: the amended behaviour at the concrete unknown type name
"mystery". -/
theorem C9_witness :
    processField (fun _ => 0) none none {} { name := "m", type := "mystery" } =
      { typeName := some "mystery" } :=
  C9_amended_thm (fun _ => 0) none none {} "m" "mystery" (by decide) (by decide)

/-- C10: in the unpack code generated for a packet, every bitfield extraction
coerces its value with one and the same constructor, the one chosen from the
type name of the last field iterated in the packet's field list, regardless
of each individual bitfield's own declared type. -/
theorem C10_thm (fs : List Field) (d : Extraction)
    (hd : d ∈ genExtractions (compilePacketD fs)) :
    d.ctor = pyBitFieldType (lastTypeNameSpec fs) := by
  cases fs with
  | nil =>
      have hnil : genExtractions (compilePacketD []) = [] := rfl
      rw [hnil] at hd
      exact absurd hd (List.not_mem_nil d)
  | cons f fs =>
      have ht : (compilePacketD (f :: fs)).typeName = lastTypeNameSpec (f :: fs) := by
        unfold compilePacketD compilePacket compileFields
        rw [finishPacket_typeName]
        exact foldl_typeName _ _ _ (f :: fs) {} (by simp)
      simp only [genExtractions, List.mem_map] at hd
      obtain ⟨bf, hbf, rfl⟩ := hd
      rw [← ht]

/-- C10 witness: in a packet whose bitfields are declared as `float` and
`char` but whose last field is a plain `bool`, the first extraction
descriptor uses the `bool` constructor, as the theorem requires. -/
theorem C10_witness :
    ({ name := mkPacketVar "f1", ctor := "bool", num := 0, mask := 8, shift := 3 } :
        Extraction) ∈ genExtractions (compilePacketD pktMix) ∧
    ({ name := mkPacketVar "f1", ctor := "bool", num := 0, mask := 8, shift := 3 } :
        Extraction).ctor = pyBitFieldType (lastTypeNameSpec pktMix) :=
  ⟨by decide, C10_thm pktMix _ (by decide)⟩

end Structspec
